import Mathlib

/-!
Shallow embedding of `src/final_Code.py` (class `RevenueCalculator`, a
Selenium script driving the fitpeo.com "Revenue Calculator" page).

The browser and the page are external: every value the script reads from
the page (element geometry, the slider's `aria-valuenow`, scraped text,
the probe outcome for the "One Time" marker) is an explicit input of the
embedded functions.  Python floats on monetary amounts are modelled as ℚ,
Python ints as ℤ.  Fallible operations (parse failures, failed `assert`
statements) return `Except Err`.
-/

namespace RevenueCalc

/-- Error taxonomy of the script: a Selenium wait timeout / missing
element, an unhandled `ValueError` from `float()`/`int()`, the textbox
`assert` (line 83), the slider `assert` (line 123), and the final totals
`assert` (line 219).  The value asserts carry both compared values, as
the Python f-string failure messages do. -/
inductive Err where
  | elementNotFound : Err
  | parseFailure : Err
  | valueMismatch (expected found : String) : Err
  | sliderConvergence (found target : ℤ) : Err
  | reimbursementMismatch (computed : ℚ) (displayed : ℤ) : Err
deriving DecidableEq, Repr

/-! ### Currency-string stripping and numeric conversion

Lines 189 and 203 both apply `.replace("$", "").replace(",", "")` before
converting; line 189 converts with `float(...)`, line 203 with `int(...)`.
-/

/-- Model of `s.replace("$", "")`: every `'$'` character is removed (replacement
by the empty string is character filtering). -/
def stripDollar (s : String) : String := ⟨s.data.filter (fun c => c ≠ '$')⟩

/-- Model of `s.replace(",", "")`: every `','` character is removed. -/
def stripComma (s : String) : String := ⟨s.data.filter (fun c => c ≠ ',')⟩

/-- The composed stripping `s.replace("$", "").replace(",", "")` applied
to every scraped currency string before numeric conversion. -/
def stripCurrency (s : String) : String := stripComma (stripDollar s)

/-- Value of a digit string, most significant digit first. -/
def natOfDigits (cs : List Char) : Nat :=
  cs.foldl (fun n c => 10 * n + (c.toNat - 48)) 0

/-- All characters are decimal digits. -/
def allDigits (cs : List Char) : Bool := cs.all Char.isDigit

/-- An optional leading `'-'` or `'+'` sign: returns the sign (true when
negative) and the remaining characters. -/
def splitSign (cs : List Char) : Bool × List Char :=
  match cs with
  | [] => (false, [])
  | c :: rest =>
      if c = '-' then (true, rest)
      else if c = '+' then (false, rest)
      else (false, c :: rest)

/-- The shape of a decimal literal accepted by Python `float`:
a sign, an integer digit part and a fractional digit part. -/
structure FloatLit where
  neg : Bool
  intPart : List Char
  fracPart : List Char
deriving DecidableEq, Repr

/-- Syntax of Python `float(s)` restricted to the decimal literals this
script can meet: optional sign, then digits with at most one `'.'` and at
least one digit (no exponent, no whitespace, no `inf`/`nan`).  `none`
models the `ValueError` raised on any other string. -/
def floatLit? (s : String) : Option FloatLit :=
  let sb := splitSign s.data
  match sb.2.splitOn '.' with
  | [a] => if a ≠ [] ∧ allDigits a then some ⟨sb.1, a, []⟩ else none
  | [a, b] =>
      if (a ≠ [] ∨ b ≠ []) ∧ allDigits a ∧ allDigits b then
        some ⟨sb.1, a, b⟩
      else none
  | _ => none

/-- The rational value of a decimal literal. -/
def FloatLit.val (l : FloatLit) : ℚ :=
  let m : ℚ := (natOfDigits l.intPart : ℚ) +
    (natOfDigits l.fracPart : ℚ) / (10 : ℚ) ^ l.fracPart.length
  if l.neg then -m else m

/-- Python `float(s)` (restricted as in `floatLit?`). -/
def pyFloat (s : String) : Option ℚ := (floatLit? s).map FloatLit.val

/-- Python `int(s)`: optional sign then a nonempty digit string; in
particular any string containing `'.'` raises `ValueError`, modelled by
`none`. -/
def pyInt (s : String) : Option ℤ :=
  let sb := splitSign s.data
  if sb.2 ≠ [] ∧ allDigits sb.2 then
    some (if sb.1 then -(natOfDigits sb.2 : ℤ) else (natOfDigits sb.2 : ℤ))
  else none

/-- Line 189: `float(reimbursement.replace("$", "").replace(",", ""))` —
the per-code reimbursement conversion. -/
def parse_reimbursement (s : String) : Option ℚ := pyFloat (stripCurrency s)

/-- Line 203: `int(text.replace("$", "").replace(",", ""))` — the
displayed monthly aggregate conversion. -/
def parse_amount (s : String) : Option ℤ := pyInt (stripCurrency s)

/-! ### Textbox: `clear_and_set_value` (lines 66-74) and
`check_value_in_textbox` (lines 76-84)

The numeric input's content is modelled as the `String` the browser
reports for its `value` attribute. -/

/-- One `Keys.BACKSPACE` key press: removes the last character of the
field (no effect on an empty field). -/
def backspace (s : String) : String := ⟨s.data.dropLast⟩

/-- Delivery of `n` successive backspace presses. -/
def sendBackspaces (n : Nat) (s : String) : String := backspace^[n] s

/-- Lines 73-74: `send_keys(Keys.BACKSPACE * len(value))` — one backspace
per character currently in the field (`Keys.BACKSPACE * n` is the
backspace key string repeated `n` times, delivered as `n` key presses,
not a bulk clear) — followed by `send_keys(value)`, which appends the
replacement string.  Returns the field's resulting content. -/
def clear_and_set_value (current value : String) : String :=
  sendBackspaces current.length current ++ value

/-- Lines 83-84: `assert field.get_attribute("value") == expected_value`
with an f-string message holding the expected and the found value.
Python `==` on strings is exact character-wise comparison. -/
def check_value_in_textbox (fieldValue expected : String) : Except Err Unit :=
  if fieldValue = expected then .ok () else .error (.valueMismatch expected fieldValue)

/-! ### Slider: `move_slider_to_target` (lines 86-124) -/

/-- On-screen geometry of the slider track and handle as returned by
Selenium's `element.rect` (`x` and `width` entries, floats). -/
structure Geometry where
  track_x : ℚ
  track_width : ℚ
  handle_x : ℚ
  handle_width : ℚ
deriving DecidableEq, Repr

/-- Line 91: `(target_value - min_value) / (max_value - min_value)`. -/
def target_percentage (mn mx target : ℚ) : ℚ := (target - mn) / (mx - mn)

/-- Lines 101-103: `target_x = slider_start_x + slider_width * pct`;
`target_x = target_x - slider_handle_width / 2`;
`offset_x = math.ceil(target_x - slider_handle_x)`. -/
def offset_x (g : Geometry) (mn mx target : ℚ) : ℤ :=
  ⌈g.track_x + g.track_width * target_percentage mn mx target
    - g.handle_width / 2 - g.handle_x⌉

/-- Lines 110-124, after the coarse drag.  `v0` is the integer the widget
reports as `aria-valuenow` once the drag is done; `stepR` and `stepL` are
the widget's responses to one `ARROW_RIGHT` / `ARROW_LEFT` key press on
the handle (external page behaviour, hence parameters).  The code sends
`target - v0` presses of one arrow key and returns without reading the
value back; only when `target - v0 == 0` does it re-read `aria-valuenow`
and assert it equals `str(target)` (two integers compared via their
decimal strings, modelled as integer equality). -/
def move_slider_to_target (stepR stepL : ℤ → ℤ) (target v0 : ℤ) :
    Except Err ℤ :=
  let number_of_keys := target - v0
  if 0 < number_of_keys then .ok (stepR^[number_of_keys.toNat] v0)
  else if number_of_keys < 0 then .ok (stepL^[(-number_of_keys).toNat] v0)
  else if v0 = target then .ok v0 else .error (.sliderConvergence v0 target)

/-- One `ARROW_RIGHT` on a slider of range `[mn, mx]` and unit step:
the value increases by 1, clamped at `mx` (`mn` is carried for symmetry
with `arrowLeft`). -/
def arrowRight (_mn mx : ℤ) (v : ℤ) : ℤ := min (v + 1) mx

/-- One `ARROW_LEFT`: the value decreases by 1, clamped at `mn`. -/
def arrowLeft (mn _mx : ℤ) (v : ℤ) : ℤ := max (v - 1) mn

/-! ### Checkboxes: `checkbox_code` (lines 157-189)

For one CPT code the method clicks the checkbox, scrapes the sibling
reimbursement text, then waits for a nested "One Time" chip; if that wait
succeeds nothing is recorded, and if it raises (the bare `except:` — in
practice the wait timeout) the parsed amount is appended to
`list_of_CPT_code_values`.  `markerFound` is the probe's outcome;
`reimbText` the scraped sibling text; `vals` the list so far. -/

def checkbox_code (markerFound : Bool) (reimbText : String) (vals : List ℚ) :
    Except Err (List ℚ) :=
  if markerFound then .ok vals
  else
    match parse_reimbursement reimbText with
    | some v => .ok (vals ++ [v])
    | none => .error .parseFailure

/-! ### Totals: `count_of_patients` (lines 192-211) and
`validation_of_total_recurring_reimbursement_per_month` (lines 214-220) -/

/-- Lines 197-211: parse the displayed aggregate with `int` (line 203),
read the patients input and parse it with `int` (line 211), and compute
`sum(list_of_CPT_code_values) * patients`.  Returns the pair
`(amount, total_Value_of_reimbursement)`. -/
def count_of_patients (aggText patientsText : String) (vals : List ℚ) :
    Except Err (ℤ × ℚ) :=
  match parse_amount aggText with
  | none => .error .parseFailure
  | some amount =>
      match pyInt patientsText with
      | none => .error .parseFailure
      | some p => .ok (amount, vals.sum * (p : ℚ))

/-- Lines 219-220: `assert total_Value_of_reimbursement == amount` with
an f-string message holding both values.  Python compares the float
`total` with the int `amount` numerically. -/
def validation (total : ℚ) (amount : ℤ) : Except Err Unit :=
  if total = (amount : ℚ) then .ok ()
  else .error (.reimbursementMismatch total amount)

/-! ### The `RevenueCalculator` instance state and the two scenarios
`run` (lines 126-144) and `execute` (lines 223-244) -/

/-- The mutable attributes set in `__init__` (lines 23-34).  The three
element attributes hold opaque browser element handles, modelled as
numeric ids (`none` before `find_elements` stores them).  The xpath
template strings of lines 35-38 are never reassigned and carry no data
the claims need, so they are left out. -/
structure CalcState where
  value_field : Option Nat
  slider_handle : Option Nat
  slider_track : Option Nat
  min_value : ℤ
  max_value : ℤ
  target_value : ℤ
  amount : ℤ
  total_Value_of_reimbursement : ℚ
  list_of_CPT_codes : List String
  list_of_CPT_code_values : List ℚ
deriving DecidableEq, Repr

/-- The attribute values set by `__init__` (lines 25-34). -/
def initState : CalcState where
  value_field := none
  slider_handle := none
  slider_track := none
  min_value := 0
  max_value := 2000
  target_value := 820
  amount := 0
  total_Value_of_reimbursement := 0
  list_of_CPT_codes := ["CPT-99091", "CPT-99453", "CPT-99454", "CPT-99474"]
  list_of_CPT_code_values := []

/-- What the page supplies to `run`: the three element handles that
`find_elements` resolves, the slider geometry, the `aria-valuenow` the
widget reports after a coarse drag by a given pixel offset, and the
textbox content at the moment `clear_and_set_value` starts. -/
structure RunEnv where
  found_value_field : Nat
  found_slider_handle : Nat
  found_slider_track : Nat
  geom : Geometry
  dragValue : ℤ → ℤ
  fieldText : String

/-- Lines 126-144: `open_website`, `click_revenue_calculator` (browser
effects only), `find_elements` (stores the three handles),
`move_slider_to_target` (arrow keys on a unit-step slider clamped to
`[min_value, max_value]`), then `clear_and_set_value(target_value)` and
`check_value_in_textbox(target_value)`.  Returns the final attribute
state on success. -/
def run (st : CalcState) (env : RunEnv) (target_value : String) :
    Except Err CalcState :=
  let st1 := { st with
    value_field := some env.found_value_field
    slider_handle := some env.found_slider_handle
    slider_track := some env.found_slider_track }
  let off := offset_x env.geom (st.min_value : ℚ) (st.max_value : ℚ)
    (st.target_value : ℚ)
  match move_slider_to_target
      (arrowRight st.min_value st.max_value)
      (arrowLeft st.min_value st.max_value)
      st.target_value (env.dragValue off) with
  | .error e => .error e
  | .ok _ =>
      match check_value_in_textbox
          (clear_and_set_value env.fieldText target_value) target_value with
      | .error e => .error e
      | .ok _ => .ok st1

/-- What the page supplies to `execute`: per CPT code, the outcome of
the "One Time" probe and the scraped sibling reimbursement text, plus
the displayed aggregate text and the patients input's value. -/
structure ExecEnv where
  markerFound : String → Bool
  reimbText : String → String
  aggText : String
  patientsText : String

/-- Lines 223-244: `open_website`, `click_revenue_calculator`, one
`checkbox_code` per CPT code in list order (appending to
`list_of_CPT_code_values`), then `count_of_patients` (stores `amount`
and `total_Value_of_reimbursement`) and the final validation.  Returns
the final attribute state on success. -/
def execute (st : CalcState) (env : ExecEnv) : Except Err CalcState :=
  match st.list_of_CPT_codes.foldlM
      (fun acc code =>
        checkbox_code (env.markerFound code) (env.reimbText code) acc)
      st.list_of_CPT_code_values with
  | .error e => .error e
  | .ok vals =>
      match count_of_patients env.aggText env.patientsText vals with
      | .error e => .error e
      | .ok at2 =>
          match validation at2.2 at2.1 with
          | .error e => .error e
          | .ok _ => .ok { st with
              list_of_CPT_code_values := vals
              amount := at2.1
              total_Value_of_reimbursement := at2.2 }

/-- A page environment for `run` under which the drag lands on 815 and
the textbox starts empty. -/
def envR0 : RunEnv where
  found_value_field := 1
  found_slider_handle := 2
  found_slider_track := 3
  geom := ⟨0, 0, 0, 0⟩
  dragValue := fun _ => 815
  fieldText := ""

/-- A page environment for `execute` under which every code carries the
"One Time" marker, the displayed aggregate is `"$0"` and the patients
input reads `"50"`. -/
def envE0 : ExecEnv where
  markerFound := fun _ => true
  reimbText := fun _ => "$0"
  aggText := "$0"
  patientsText := "50"

/-- The state `run initState envR0 "560"` ends in. -/
def stR0 : CalcState :=
  { initState with
    value_field := some 1
    slider_handle := some 2
    slider_track := some 3 }

/-- The state `execute initState envE0` ends in. -/
def stE0 : CalcState :=
  { initState with
    list_of_CPT_code_values := []
    amount := 0
    total_Value_of_reimbursement := 0 }

/-! ## Supporting lemmas -/

/-- Concrete evaluation: `float` on the stripped `"$1,234.00"`. -/
theorem parse_example_1234 : parse_reimbursement "$1,234.00" = some 1234 := by
  have h : floatLit? (stripCurrency "$1,234.00") =
      some ⟨false, ['1','2','3','4'], ['0','0']⟩ := by decide
  simp [parse_reimbursement, pyFloat, h, FloatLit.val]
  norm_num [show natOfDigits ['1','2','3','4'] = 1234 from by decide,
            show natOfDigits ['0','0'] = 0 from by decide]

/-- Concrete evaluation: `float` on the stripped `"$0"`. -/
theorem parse_example_zero : parse_reimbursement "$0" = some 0 := by
  have h : floatLit? (stripCurrency "$0") = some ⟨false, ['0'], []⟩ := by decide
  simp [parse_reimbursement, pyFloat, h, FloatLit.val]
  norm_num [show natOfDigits ['0'] = 0 from by decide,
            show natOfDigits [] = 0 from by decide]

/-- Concrete evaluation: `float` accepts the stripped `"$1,234.50"`. -/
theorem parse_example_float_cents :
    parse_reimbursement "$1,234.50" = some (2469 / 2) := by
  have h : floatLit? (stripCurrency "$1,234.50") =
      some ⟨false, ['1','2','3','4'], ['5','0']⟩ := by decide
  simp [parse_reimbursement, pyFloat, h, FloatLit.val]
  norm_num [show natOfDigits ['1','2','3','4'] = 1234 from by decide,
            show natOfDigits ['5','0'] = 50 from by decide]

/-- Sending `n` backspaces to a string is `n` `dropLast` steps on its data. -/
theorem backspace_iterate (n : ℕ) (l : List Char) :
    backspace^[n] ⟨l⟩ = ⟨List.dropLast^[n] l⟩ := by
  induction n generalizing l with
  | zero => simp
  | succ n ih =>
      rw [Function.iterate_succ_apply, Function.iterate_succ_apply]
      exact ih l.dropLast

/-- Enough `dropLast` steps empty any list. -/
theorem dropLast_iterate_nil (n : ℕ) (l : List Char) (h : l.length ≤ n) :
    List.dropLast^[n] l = [] := by
  induction n generalizing l with
  | zero => simpa using List.eq_nil_of_length_eq_zero (Nat.le_zero.mp h)
  | succ n ih =>
      rw [Function.iterate_succ_apply]
      exact ih l.dropLast (by rw [List.length_dropLast]; omega)

/-- One backspace per current character leaves the field empty. -/
theorem sendBackspaces_clears (s : String) : sendBackspaces s.length s = "" := by
  have h := backspace_iterate s.length s.data
  rw [show (⟨s.data⟩ : String) = s from rfl] at h
  rw [sendBackspaces, h, dropLast_iterate_nil s.length s.data le_rfl]

/-- Iterating `arrowRight` stays under the clamp while the unit steps fit. -/
theorem arrowRight_iterate (mn mx : ℤ) (k : ℕ) (v : ℤ)
    (h : v + (k : ℤ) ≤ mx) : (arrowRight mn mx)^[k] v = v + (k : ℤ) := by
  induction k generalizing v with
  | zero => simp
  | succ n ih =>
      rw [Function.iterate_succ_apply]
      have hstep : arrowRight mn mx v = v + 1 := by
        have : v + 1 ≤ mx := by push_cast at h; omega
        simp [arrowRight]; omega
      rw [hstep, ih (v + 1) (by push_cast at h ⊢; omega)]
      push_cast; ring

/-- The mirror image for `ARROW_LEFT`. -/
theorem arrowLeft_iterate (mn mx : ℤ) (k : ℕ) (v : ℤ)
    (h : mn ≤ v - (k : ℤ)) : (arrowLeft mn mx)^[k] v = v - (k : ℤ) := by
  induction k generalizing v with
  | zero => simp
  | succ n ih =>
      rw [Function.iterate_succ_apply]
      have hstep : arrowLeft mn mx v = v - 1 := by
        have : mn ≤ v - 1 := by push_cast at h; omega
        simp [arrowLeft]; omega
      rw [hstep, ih (v - 1) (by push_cast at h ⊢; omega)]
      push_cast; ring

/-! ## Claim theorems -/

/-- C3: the coarse-phase pixel offset is exactly
`ceil(track.x + track.width * ((target - min) / (max - min))
- handle.width / 2 - handle.x)`, and for `min = 0`, `max = 2000`,
`target = 820` the target fraction is `0.41`. -/
theorem coarse_offset_formula :
    (∀ (g : Geometry) (mn mx t : ℚ), offset_x g mn mx t =
      ⌈g.track_x + g.track_width * ((t - mn) / (mx - mn))
        - g.handle_width / 2 - g.handle_x⌉) ∧
    target_percentage 0 2000 820 = 41 / 100 := by
  constructor
  · intro g mn mx t; rfl
  · norm_num [target_percentage]

/-- C5 counterexample: currency parsing is not total — the string
`"abc"` yields no numeric result (Python `float("abc")` raises an
unhandled `ValueError`). -/
theorem currency_parse_not_total : parse_reimbursement "abc" = none := by
  decide

/-- C5 amended: currency parsing strips every `'$'` and `','` character
before numeric conversion and meets both concrete examples, but it is a
partial function — strings that are not decimal literals after stripping
produce a parse failure, not a numeric result. -/
theorem currency_parse_strips_and_examples :
    (∀ s : String, parse_reimbursement s =
      pyFloat ⟨s.data.filter (fun c => c ≠ '$' ∧ c ≠ ',')⟩) ∧
    parse_reimbursement "$1,234.00" = some 1234 ∧
    parse_reimbursement "$0" = some 0 := by
  refine ⟨fun s => ?_, parse_example_1234, parse_example_zero⟩
  have hfun : (fun c : Char => decide (c ≠ ',') && decide (c ≠ '$')) =
      (fun c : Char => decide (c ≠ '$' ∧ c ≠ ',')) := by
    funext c
    by_cases h1 : c = '$' <;> by_cases h2 : c = ',' <;> simp [h1, h2]
  simp only [parse_reimbursement, stripCurrency, stripComma, stripDollar,
    List.filter_filter, hfun]

/-- C6: the textbox check fails with a `ValueMismatch` carrying both
strings exactly when the field text differs from the expected string
under exact string comparison; `"560"` is satisfied neither by
`"560.0"` nor by `"0560"`. -/
theorem textbox_check_exact (fv expected : String) :
    (check_value_in_textbox fv expected = .ok () ↔ fv = expected) ∧
    (check_value_in_textbox fv expected =
      .error (.valueMismatch expected fv) ↔ fv ≠ expected) ∧
    check_value_in_textbox "560.0" "560" =
      .error (.valueMismatch "560" "560.0") ∧
    check_value_in_textbox "0560" "560" =
      .error (.valueMismatch "560" "0560") := by
  refine ⟨?_, ?_, by simp [check_value_in_textbox], by simp [check_value_in_textbox]⟩ <;>
    by_cases h : fv = expected <;> simp [check_value_in_textbox, h]

/-- C7: setting the field issues one backspace per character currently
in the field and then types the replacement, so the field ends exactly
as the replacement string and the subsequent check succeeds for every
prior content. -/
theorem clear_set_then_check (current value : String) :
    clear_and_set_value current value =
      sendBackspaces current.length current ++ value ∧
    clear_and_set_value current value = value ∧
    check_value_in_textbox (clear_and_set_value current value) value =
      .ok () := by
  have hset : clear_and_set_value current value = value := by
    rw [clear_and_set_value, sendBackspaces_clears]; rfl
  exact ⟨rfl, hset, by simp [hset, check_value_in_textbox]⟩

/-- C2: for every `min ≤ target ≤ max`, the coarse drag followed by
`target - currentValue` unit arrow-key presses leaves the slider's
reported value exactly at `target`, for any value whatsoever the coarse
phase may have produced. -/
theorem slider_two_phase_converges (mn mx target v0 : ℤ)
    (htl : mn ≤ target) (htu : target ≤ mx) :
    move_slider_to_target (arrowRight mn mx) (arrowLeft mn mx) target v0 =
      .ok target := by
  rw [move_slider_to_target]
  by_cases hpos : 0 < target - v0
  · rw [if_pos hpos]
    have hk : (((target - v0).toNat : ℤ)) = target - v0 :=
      Int.toNat_of_nonneg (le_of_lt hpos)
    rw [arrowRight_iterate mn mx _ v0 (by rw [hk]; omega), hk]
    norm_num
  · rw [if_neg hpos]
    by_cases hneg : target - v0 < 0
    · rw [if_pos hneg]
      have hk : (((-(target - v0)).toNat : ℤ)) = -(target - v0) :=
        Int.toNat_of_nonneg (by omega)
      rw [arrowLeft_iterate mn mx _ v0 (by rw [hk]; omega), hk]
      norm_num
    · rw [if_neg hneg, if_pos (show v0 = target by omega),
        show v0 = target by omega]

/-- Witness for C2 at `(min, max, target) = (0, 2000, 820)` with the
coarse drag landing on 815. -/
theorem slider_two_phase_converges_witness :
    (0 : ℤ) ≤ 820 ∧ (820 : ℤ) ≤ 2000 ∧
    move_slider_to_target (arrowRight 0 2000) (arrowLeft 0 2000) 820 815 =
      .ok 820 :=
  ⟨by decide, by decide,
    slider_two_phase_converges 0 2000 820 815 (by decide) (by decide)⟩

/-- C9: when `delta = target - currentValue` is nonzero the slider
routine returns successfully after sending the key events, for every
possible widget response to those keys (`stepR`, `stepL` arbitrary): it
never re-reads or checks the final value, so the defensive assertion can
only be reached in the `delta = 0` branch. -/
theorem slider_assert_only_in_zero_branch (stepR stepL : ℤ → ℤ)
    (target v0 : ℤ) (h : target - v0 ≠ 0) :
    (move_slider_to_target stepR stepL target v0).isOk = true := by
  rw [move_slider_to_target]
  by_cases hpos : 0 < target - v0
  · rw [if_pos hpos]; rfl
  · rw [if_neg hpos, if_pos (by omega : target - v0 < 0)]; rfl

/-- Witness for C9: `delta = 5 ≠ 0`, with key presses that do nothing at
all (`id`), and still a successful return. -/
theorem slider_assert_only_in_zero_branch_witness :
    (820 : ℤ) - 815 ≠ 0 ∧
    (move_slider_to_target id id 820 815).isOk = true :=
  ⟨by decide, slider_assert_only_in_zero_branch id id 820 815 (by decide)⟩

/-- C4: a code's scraped amount is appended to the recurring collection
exactly when the probe for the nested "One Time" marker fails to find it
(the bounded wait times out); when the marker is found nothing is
recorded for that code. -/
theorem one_time_marker_excludes (markerFound : Bool) (reimbText : String)
    (vals : List ℚ) (v : ℚ) (hp : parse_reimbursement reimbText = some v) :
    checkbox_code markerFound reimbText vals =
      .ok (if markerFound then vals else vals ++ [v]) := by
  cases markerFound <;> simp [checkbox_code, hp]

/-- Witness for C4 at the marker-absent case with scraped text `"$0"`. -/
theorem one_time_marker_excludes_witness :
    parse_reimbursement "$0" = some 0 ∧
    checkbox_code false "$0" [] =
      .ok (if false then ([] : List ℚ) else [] ++ [0]) :=
  ⟨parse_example_zero,
    one_time_marker_excludes false "$0" [] 0 parse_example_zero⟩

/-- C1: with per-code amounts `vals` and patient count `p`, the computed
total is `vals.sum * p`; the validator succeeds exactly when it equals
the displayed aggregate and otherwise fails with a mismatch carrying
both values. -/
theorem reimbursement_total_validator (vals : List ℚ)
    (aggText patientsText : String) (amount p : ℤ)
    (hA : parse_amount aggText = some amount)
    (hP : pyInt patientsText = some p) :
    count_of_patients aggText patientsText vals =
      .ok (amount, vals.sum * (p : ℚ)) ∧
    (validation (vals.sum * (p : ℚ)) amount = .ok () ↔
      vals.sum * (p : ℚ) = (amount : ℚ)) ∧
    (validation (vals.sum * (p : ℚ)) amount =
        .error (.reimbursementMismatch (vals.sum * (p : ℚ)) amount) ↔
      vals.sum * (p : ℚ) ≠ (amount : ℚ)) := by
  refine ⟨by simp [count_of_patients, hA, hP], ?_, ?_⟩ <;>
    by_cases h : vals.sum * (p : ℚ) = (amount : ℚ) <;> simp [validation, h]

/-- Witness for C1: three recurring amounts summing to 35, 50 patients,
displayed aggregate `"$1,750"`. -/
theorem reimbursement_total_validator_witness :
    parse_amount "$1,750" = some 1750 ∧ pyInt "50" = some 50 ∧
    (count_of_patients "$1,750" "50" [10, 20, 5] =
        .ok (1750, ([10, 20, 5] : List ℚ).sum * ((50 : ℤ) : ℚ)) ∧
      (validation (([10, 20, 5] : List ℚ).sum * ((50 : ℤ) : ℚ)) 1750 =
          .ok () ↔
        ([10, 20, 5] : List ℚ).sum * ((50 : ℤ) : ℚ) = ((1750 : ℤ) : ℚ)) ∧
      (validation (([10, 20, 5] : List ℚ).sum * ((50 : ℤ) : ℚ)) 1750 =
          .error (.reimbursementMismatch
            (([10, 20, 5] : List ℚ).sum * ((50 : ℤ) : ℚ)) 1750) ↔
        ([10, 20, 5] : List ℚ).sum * ((50 : ℤ) : ℚ) ≠ ((1750 : ℤ) : ℚ))) :=
  ⟨by decide, by decide,
    reimbursement_total_validator [10, 20, 5] "$1,750" "50" 1750 50
      (by decide) (by decide)⟩

/-- Stripping `'$'` and `','` never removes a decimal point. -/
theorem dot_mem_stripCurrency (s : String) (h : '.' ∈ s.data) :
    '.' ∈ (stripCurrency s).data := by
  simp only [stripCurrency, stripComma, stripDollar, List.mem_filter]
  refine ⟨⟨h, by decide⟩, by decide⟩

/-- A character of the input other than the sign characters survives
the optional-sign split. -/
theorem mem_splitSign_snd (cs : List Char) (c0 : Char) (h : c0 ∈ cs)
    (h1 : c0 ≠ '-') (h2 : c0 ≠ '+') : c0 ∈ (splitSign cs).2 := by
  cases cs with
  | nil => simp at h
  | cons c rest =>
      rw [splitSign]
      split_ifs with hm hp
      · rcases List.mem_cons.mp h with hc | hr
        · exact absurd (hc.trans hm) h1
        · exact hr
      · rcases List.mem_cons.mp h with hc | hr
        · exact absurd (hc.trans hp) h2
        · exact hr
      · exact h

/-- Python `int` rejects every string containing a decimal point. -/
theorem pyInt_none_of_dot (s : String) (h : '.' ∈ s.data) :
    pyInt s = none := by
  have hb : '.' ∈ (splitSign s.data).2 :=
    mem_splitSign_snd s.data '.' h (by decide) (by decide)
  rw [pyInt, if_neg]
  intro hcond
  have hall := hcond.2
  rw [allDigits, List.all_eq_true] at hall
  exact absurd (hall '.' hb) (by decide)

/-- C10: the two scraped monetary values are converted asymmetrically —
the per-code reimbursement through `float`, which accepts a decimal
point, and the displayed aggregate through `int`, which raises an
unhandled error on any text still containing `'.'` after stripping;
the final check then compares the float total against that integer. -/
theorem parsing_asymmetry (s : String) (h : '.' ∈ s.data) :
    parse_amount s = none ∧
    parse_reimbursement "$1,234.50" = some (2469 / 2) ∧
    parse_amount "$1,234" = some 1234 ∧
    (∀ (total : ℚ) (amount : ℤ),
      validation total amount = .ok () ↔ total = (amount : ℚ)) := by
  refine ⟨?_, parse_example_float_cents, by decide, ?_⟩
  · rw [parse_amount]
    exact pyInt_none_of_dot _ (dot_mem_stripCurrency s h)
  · intro total amount
    by_cases hq : total = (amount : ℚ) <;> simp [validation, hq]

/-- Witness for C10 at the aggregate text `"$1,234.50"`. -/
theorem parsing_asymmetry_witness :
    '.' ∈ "$1,234.50".data ∧
    (parse_amount "$1,234.50" = none ∧
      parse_reimbursement "$1,234.50" = some (2469 / 2) ∧
      parse_amount "$1,234" = some 1234 ∧
      (∀ (total : ℚ) (amount : ℤ),
        validation total amount = .ok () ↔ total = (amount : ℚ))) :=
  ⟨by decide, parsing_asymmetry "$1,234.50" (by decide)⟩

/-- C8: the slider/textbox scenario (`run`) never changes the
reimbursement attributes, and the reimbursement scenario (`execute`)
never changes the slider configuration, whatever the page supplies. -/
theorem scenarios_share_no_state (st : CalcState) (envR : RunEnv)
    (envE : ExecEnv) (tv : String) :
    (∀ st1, run st envR tv = .ok st1 →
      st1.amount = st.amount ∧
      st1.total_Value_of_reimbursement = st.total_Value_of_reimbursement ∧
      st1.list_of_CPT_code_values = st.list_of_CPT_code_values) ∧
    (∀ st1, execute st envE = .ok st1 →
      st1.min_value = st.min_value ∧ st1.max_value = st.max_value ∧
      st1.target_value = st.target_value) := by
  constructor
  · intro st1 h
    simp only [run] at h
    split at h
    · exact Except.noConfusion h
    · split at h
      · exact Except.noConfusion h
      · cases h
        exact ⟨rfl, rfl, rfl⟩
  · intro st1 h
    simp only [execute] at h
    split at h
    · exact Except.noConfusion h
    · split at h
      · exact Except.noConfusion h
      · split at h
        · exact Except.noConfusion h
        · cases h
          exact ⟨rfl, rfl, rfl⟩

/-- Witness for C8: a complete successful pass of each scenario from
the initial state, and the other scenario's attributes untouched. -/
theorem scenarios_share_no_state_witness :
    run initState envR0 "560" = .ok stR0 ∧
    execute initState envE0 = .ok stE0 ∧
    stR0.amount = initState.amount ∧
    stR0.total_Value_of_reimbursement =
      initState.total_Value_of_reimbursement ∧
    stR0.list_of_CPT_code_values = initState.list_of_CPT_code_values ∧
    stE0.min_value = initState.min_value ∧
    stE0.max_value = initState.max_value ∧
    stE0.target_value = initState.target_value := by
  have h1 : run initState envR0 "560" = .ok stR0 := by rfl
  have h2 : execute initState envE0 = .ok stE0 := by
    have hfold : initState.list_of_CPT_codes.foldlM
        (fun acc code =>
          checkbox_code (envE0.markerFound code) (envE0.reimbText code) acc)
        initState.list_of_CPT_code_values = .ok [] := by rfl
    have hcount : count_of_patients envE0.aggText envE0.patientsText [] =
        .ok (0, ([] : List ℚ).sum * ((50 : ℤ) : ℚ)) := by
      rw [show envE0.aggText = "$0" from rfl,
        show envE0.patientsText = "50" from rfl, count_of_patients,
        show parse_amount "$0" = some 0 from by decide,
        show pyInt "50" = some 50 from by decide]
    have hval : validation (([] : List ℚ).sum * ((50 : ℤ) : ℚ)) 0 =
        .ok () := by
      rw [validation, if_pos]
      simp
    rw [execute, hfold]
    simp only [hcount, hval]
    simp [stE0, initState, CalcState.mk.injEq]
  obtain ⟨hA, hB, hC⟩ :=
    (scenarios_share_no_state initState envR0 envE0 "560").1 stR0 h1
  obtain ⟨hD, hE, hF⟩ :=
    (scenarios_share_no_state initState envR0 envE0 "560").2 stE0 h2
  exact ⟨h1, h2, hA, hB, hC, hD, hE, hF⟩

end RevenueCalc
